import Mathlib

/-!
# Verification development for `go-libs-db`

A shallow embedding of the connection helpers (`mongo.go`, `oracle.go`) and of the
filter translator (`pg.go`), followed by theorems about them.

Conventions of the embedding

* A Go `map[int]string` ranged over by `for k, v := range m` is a `List (Int × String)`:
  the entries of the map in the order in which the `range` statement yields them.
  Go leaves that order unspecified, so every statement is made for an arbitrary list,
  and statements about "any order" quantify over permutations.
* A Go `error` is an `Option String` holding the message; `none` is `nil`.
* The third-party drivers are parameters: a driver is a record of functions that
  answer each call the code makes.  Every call the code makes is appended to a trace.
* `fmt.Sprintf` with `%s` verbs is string concatenation, `%d` is `toString` on `Int`.
-/

set_option autoImplicit false

namespace GoLibsDb

/-! ## mongo.go -/

/-- Embedding of `MongoConf` (the `Logger` field is represented by the log in `MongoResult`). -/
structure MongoConf where
  Host : List (Int × String)
  User : String
  Pass : String
  DB : String
  Srv : Bool
  Cluster : Bool
  RsName : String
deriving Repr, DecidableEq

/-- Answers of the MongoDB driver. A client is identified by the URI it was built from;
a database handle by that URI and the database name. Each field gives the `error`
the corresponding driver call returns. -/
structure MongoDriver where
  /-- Error of `mongo.NewClient(options.Client().ApplyURI(uri))`. -/
  newClient : String → Option String
  /-- Error of `client.Connect(ctx)` for the client built from the URI. -/
  connect : String → Option String
  /-- Error of `client.Ping(context.TODO(), nil)`. -/
  ping : String → Option String
  /-- Error of `InsertOne` on collection `test` of the database (client URI, name). -/
  insertOne : String → String → Option String
  /-- Error of `Drop` on collection `test` of the database (client URI, name). -/
  drop : String → String → Option String

/-- One call made to the MongoDB driver. -/
inductive DriverCall where
  | newClient (uri : String)
  | connect (uri : String)
  | ping (uri : String)
  | insertOne (uri : String) (db : String)
  | drop (uri : String) (db : String)
deriving Repr, DecidableEq

/-- Embedding of `*mongo.Database` as returned by `client.Database(name)`. -/
structure Database where
  uri : String
  name : String
deriving Repr, DecidableEq

/-- What a Mongo connector returns and does: the returned pair `(db, err)`, the driver
calls made in order, and the messages handed to the logger in order. -/
structure MongoResult where
  db : Option Database
  err : Option String
  calls : List DriverCall
  log : List String
deriving Repr, DecidableEq

/-- Embedding of `MongoDBServerStatus`: returns the error and the driver calls made. -/
def MongoDBServerStatus (d : MongoDriver) (db : Database) : Option String × List DriverCall :=
  match d.insertOne db.uri db.name with
  | none =>
    match d.drop db.uri db.name with
    | some e => (some e, [DriverCall.insertOne db.uri db.name, DriverCall.drop db.uri db.name])
    | none => (none, [DriverCall.insertOne db.uri db.name, DriverCall.drop db.uri db.name])
  | some e => (some e, [DriverCall.insertOne db.uri db.name])

/-- The initial value of `dbURI` in both Mongo connectors. -/
def scheme (p : MongoConf) : String :=
  if p.Srv then "mongodb+srv://" else "mongodb://"

/-- The assignment to `dbURI` in the body of the loop of `NewMongoStandAloneConnection`:
both `Sprintf` calls take the current `dbURI` as their first argument. -/
def standAloneURI (p : MongoConf) (dbURI : String) (vhost : String) : String :=
  if p.User = "" || p.Pass = "" then
    dbURI ++ vhost ++ "/" ++ p.DB ++ "?retryWrites=true&w=majority&connect=direct"
  else
    dbURI ++ p.User ++ ":" ++ p.Pass ++ "@" ++ vhost ++ "/" ++ p.DB
      ++ "?retryWrites=true&w=majority&connect=direct"

/-- The loop of `NewMongoStandAloneConnection` from a given loop state: `dbURI` is the
current value of the variable of that name (declared outside the loop), `calls` and
`log` the trace so far, the list the entries still to be ranged over. -/
def standAloneLoop (p : MongoConf) (d : MongoDriver) :
    String → List DriverCall → List String → List (Int × String) → MongoResult
  | _, calls, log, [] =>
    { db := none, err := some "unable to connect to any configured hostname",
      calls := calls, log := log }
  | dbURI, calls, log, (khost, vhost) :: rest =>
    let dbURI := standAloneURI p dbURI vhost
    match d.newClient dbURI with
    | some _ => standAloneLoop p d dbURI (calls ++ [DriverCall.newClient dbURI]) log rest
    | none =>
      match d.connect dbURI with
      | some _ =>
        standAloneLoop p d dbURI
          (calls ++ [DriverCall.newClient dbURI, DriverCall.connect dbURI]) log rest
      | none =>
        match d.ping dbURI with
        | some _ =>
          standAloneLoop p d dbURI
            (calls ++ [DriverCall.newClient dbURI, DriverCall.connect dbURI,
              DriverCall.ping dbURI]) log rest
        | none =>
          match MongoDBServerStatus d { uri := dbURI, name := p.DB } with
          | (some e, cs) =>
            standAloneLoop p d dbURI
              (calls ++ [DriverCall.newClient dbURI, DriverCall.connect dbURI,
                DriverCall.ping dbURI] ++ cs)
              (log ++ ["| Mongo | Connecting To Mongo StandAlone | Host Number : "
                ++ toString khost ++ " | Error | " ++ e ++ "\n"]) rest
          | (none, cs) =>
            { db := some { uri := dbURI, name := p.DB }, err := none,
              calls := calls ++ [DriverCall.newClient dbURI, DriverCall.connect dbURI,
                DriverCall.ping dbURI] ++ cs,
              log := log ++ ["| Mongo | Connecting To Mongo StandAlone | Host Number : "
                ++ toString khost ++ " | Success\n"] }

/-- Embedding of `MongoConf.NewMongoStandAloneConnection`. -/
def NewMongoStandAloneConnection (p : MongoConf) (d : MongoDriver) : MongoResult :=
  standAloneLoop p d (scheme p) [] ["| Mongo | Connecting To Mongo StandAlone"] p.Host

/-- The value of `dbURI` built by `NewMongoClusterConnection` from the joined host names. -/
def clusterURI (p : MongoConf) (hostname : String) : String :=
  if p.User = "" || p.Pass = "" then
    scheme p ++ hostname ++ "/" ++ p.DB ++ "?retryWrites=true&w=majority&replicaSet=" ++ p.RsName
  else
    scheme p ++ p.User ++ ":" ++ p.Pass ++ "@" ++ hostname ++ "/" ++ p.DB
      ++ "?retryWrites=true&w=majority&replicaSet=" ++ p.RsName

/-- Embedding of `MongoConf.NewMongoClusterConnection`. `ClusterHost` collects the
addresses in range order and `strings.Join` puts `","` between them. -/
def NewMongoClusterConnection (p : MongoConf) (d : MongoDriver) : MongoResult :=
  let log := ["| Mongo | Connecting To Mongo Cluster"]
  if p.Host.length = 1 then
    { db := none,
      err := some "a cluster connection cannot be made if only a host is specified",
      calls := [], log := log }
  else
    let ClusterHost := p.Host.map Prod.snd
    let hostname := String.intercalate "," ClusterHost
    let dbURI := clusterURI p hostname
    match d.newClient dbURI with
    | some e => { db := none, err := some e, calls := [DriverCall.newClient dbURI], log := log }
    | none =>
      match d.connect dbURI with
      | some e =>
        { db := none, err := some e,
          calls := [DriverCall.newClient dbURI, DriverCall.connect dbURI], log := log }
      | none =>
        match d.ping dbURI with
        | some e =>
          { db := none, err := some e,
            calls := [DriverCall.newClient dbURI, DriverCall.connect dbURI,
              DriverCall.ping dbURI], log := log }
        | none =>
          { db := some { uri := dbURI, name := p.DB }, err := none,
            calls := [DriverCall.newClient dbURI, DriverCall.connect dbURI,
              DriverCall.ping dbURI],
            log := log ++ ["| Mongo | Connecting To Mongo Cluster | Success\n"] }

/-- Embedding of `NewMongoConnection`: builds the configuration and dispatches on `cluster`. -/
def NewMongoConnection (host : List (Int × String)) (user pass db : String) (srv : Bool)
    (cluster : Bool) (rsname : String) (d : MongoDriver) : MongoResult :=
  let conf : MongoConf :=
    { Host := host, User := user, Pass := pass, DB := db, Srv := srv, Cluster := cluster,
      RsName := rsname }
  if cluster then NewMongoClusterConnection conf d else NewMongoStandAloneConnection conf d

/-- The URIs handed to `mongo.NewClient`, in order, in a trace of driver calls. -/
def urisTried : List DriverCall → List String
  | [] => []
  | DriverCall.newClient uri :: cs => uri :: urisTried cs
  | _ :: cs => urisTried cs

/-- The number of `client.Connect` calls in a trace of driver calls. -/
def connectCalls : List DriverCall → Nat
  | [] => 0
  | DriverCall.connect _ :: cs => connectCalls cs + 1
  | _ :: cs => connectCalls cs

/-! ## oracle.go -/

/-- Embedding of `OracleConnection` (the `Logger` field is represented by the log in
`OracleResult`). -/
structure OracleConnection where
  Host : List (Int × String)
  User : String
  Pass : String
  DB : String
  Timeout : String
deriving Repr, DecidableEq

/-- What `Connect` returns and does: the returned pair (the handle is identified by
the connection string it was opened with), the connection strings handed to
`sql.Open("godror", ·)` in order, and the messages handed to the logger. -/
structure OracleResult where
  db : Option String
  err : Option String
  opened : List String
  log : List String
deriving Repr, DecidableEq

/-- The connection string built in the loop of `Connect`. -/
def connectionString (p : OracleConnection) (currentHost : String) : String :=
  "user=\"" ++ p.User ++ "\" password=\"" ++ p.Pass ++ "\" connectString=\"" ++ currentHost
    ++ "/" ++ p.DB ++ "?connect_timeout=" ++ p.Timeout ++ "\""

/-- The loop of `OracleConnection.Connect`; `sqlOpen` gives the error returned by
`sql.Open("godror", connectionString)`. -/
def connectLoop (p : OracleConnection) (sqlOpen : String → Option String) :
    List String → List String → List (Int × String) → OracleResult
  | opened, log, [] =>
    { db := none, err := some "unable to connect to any configured host",
      opened := opened, log := log }
  | opened, log, (keyHost, currentHost) :: rest =>
    let cs := connectionString p currentHost
    match sqlOpen cs with
    | some e =>
      connectLoop p sqlOpen (opened ++ [cs])
        (log ++ ["| Oracle | Connecting To Host Number : " ++ toString keyHost
          ++ " | Error | " ++ e ++ "\n"]) rest
    | none =>
      { db := some cs, err := none, opened := opened ++ [cs],
        log := log ++ ["| Oracle | Connecting To Host Number : " ++ toString keyHost
          ++ " | Success\n"] }

/-- Embedding of `OracleConnection.Connect`. -/
def OracleConnection.Connect (p : OracleConnection) (sqlOpen : String → Option String) :
    OracleResult :=
  connectLoop p sqlOpen [] [] p.Host

/-! ## pg.go -/

/-- Model of `unicode.ToLower` on one rune: the ASCII capitals are shifted to their small
letters, and the two non-ASCII runes whose lower case is an ASCII letter (U+0130 and
U+212A) are mapped to `i` and `k`. Every other rune is left as it is: Go maps the other
non-ASCII capitals to non-ASCII small letters, which this model does not track, so the
model is exact whenever the result is compared with an ASCII string. -/
def toLowerRune (c : Char) : Char :=
  if c = Char.ofNat 304 then Char.ofNat 105
  else if c = Char.ofNat 8490 then Char.ofNat 107
  else c.toLower

/-- Model of `strings.ToLower`: `toLowerRune` applied to every rune. -/
def ToLower (s : String) : String :=
  String.mk (s.data.map toLowerRune)

/-- A value held by an `interface{}`: the constructor is the dynamic type. The two
floating-point types carry the bit pattern of the number; no arithmetic is done on them. -/
inductive Value where
  | nil
  | bool (b : Bool)
  | int (i : Int)
  | float32 (bits : Nat)
  | float64 (bits : Nat)
  | string (s : String)
  | other (typeName : String) (text : String)
deriving Repr, DecidableEq

/-- The type assertion `v.(float64)`: the value and the `ok` flag. -/
def Value.assertFloat64 : Value → Nat × Bool
  | Value.float64 bits => (bits, true)
  | _ => (0, false)

/-- The type assertion `v.(string)`: the value and the `ok` flag. -/
def Value.assertString : Value → String × Bool
  | Value.string s => (s, true)
  | _ => ("", false)

/-- Embedding of `conditions`. -/
structure conditions where
  Operator : String
  Value1 : Value
  Value2 : Value
deriving Repr, DecidableEq

/-- Model of the part of `*gorm.DB` the translator touches: the WHERE conditions of the
search (each a query text with its bound arguments, in the order they were added) and the
`Error` slot. Only the builder a function returns is modelled. -/
structure DB where
  whereConditions : List (String × List Value)
  Error : Option String
deriving Repr, DecidableEq

/-- Model of `db.Where(query, args...)`: the returned builder carries the conditions of
the receiver followed by the new one, and the receiver's `Error`. -/
def DB.Where (db : DB) (query : String) (args : List Value) : DB :=
  { whereConditions := db.whereConditions ++ [(query, args)], Error := db.Error }

/-- Embedding of `normalOperator`. -/
def normalOperator (db : DB) (key : String) (condition : conditions) : DB :=
  let operator := ToLower condition.Operator
  let operator :=
    if operator = "lt" then "<"
    else if operator = "lte" then "<="
    else if operator = "gt" then ">"
    else if operator = "gte" then ">="
    else if operator = "eq" then "="
    else if operator = "ne" then "!="
    else operator
  let statement := key ++ " " ++ operator ++ " ?"
  db.Where statement [condition.Value1]

/-- Embedding of `likeOperator`. -/
def likeOperator (db : DB) (key : String) (condition : conditions) : DB :=
  match condition.Value1.assertString with
  | (_, false) => { db with Error := some ("value_1 of " ++ key ++ " must be of string type") }
  | (val, true) =>
    let statement := key ++ " ILIKE ?"
    db.Where statement [Value.string ("%" ++ val ++ "%")]

/-- Embedding of `rangeOperator`. -/
def rangeOperator (db : DB) (key : String) (condition : conditions) : DB :=
  match condition.Value1.assertFloat64 with
  | (_, false) =>
    { db with Error := some ("value_1 of " ++ key ++ " must be of integer or float type") }
  | (_, true) =>
    match condition.Value2.assertFloat64 with
    | (_, false) =>
      { db with Error := some ("value_2 of " ++ key ++ " must be of integer or float type") }
    | (_, true) =>
      let statement := key ++ " BETWEEN ? AND ?"
      db.Where statement [condition.Value1, condition.Value2]

/-- Embedding of `rangeNotEqualOperator`. -/
def rangeNotEqualOperator (db : DB) (key : String) (condition : conditions) : DB :=
  match condition.Value1.assertFloat64 with
  | (_, false) =>
    { db with Error := some ("value_1 of " ++ key ++ " must be of integer or float type") }
  | (_, true) =>
    match condition.Value2.assertFloat64 with
    | (_, false) =>
      { db with Error := some ("value_2 of " ++ key ++ " must be of integer or float type") }
    | (_, true) =>
      let statement := key ++ " > ? AND " ++ key ++ " < ?"
      db.Where statement [condition.Value1, condition.Value2]

/-- Embedding of `notInRangeOperator`. -/
def notInRangeOperator (db : DB) (key : String) (condition : conditions) : DB :=
  match condition.Value1.assertFloat64 with
  | (_, false) =>
    { db with Error := some ("value_1 of " ++ key ++ " must be of integer or float type") }
  | (_, true) =>
    match condition.Value2.assertFloat64 with
    | (_, false) =>
      { db with Error := some ("value_2 of " ++ key ++ " must be of integer or float type") }
    | (_, true) =>
      let statement := key ++ " NOT BETWEEN ? AND ?"
      db.Where statement [condition.Value1, condition.Value2]

/-- The body of the loop of `PGFiltering`: the `switch` on the lower-cased operator. -/
def filterStep (db : DB) (key : String) (value : conditions) : DB :=
  let tag := ToLower value.Operator
  if tag = "lt" ∨ tag = "lte" ∨ tag = "gt" ∨ tag = "gte" ∨ tag = "eq" ∨ tag = "ne" then
    normalOperator db key value
  else if tag = "like" then likeOperator db key value
  else if tag = "rng" then rangeOperator db key value
  else if tag = "rne" then rangeNotEqualOperator db key value
  else if tag = "nir" then notInRangeOperator db key value
  else { db with Error := some "unrecognized operator" }

/-- The loop of `PGFiltering` over the entries of the map in range order. -/
def filterLoop : DB → List (String × conditions) → DB
  | db, [] => db
  | db, (key, value) :: rest => filterLoop (filterStep db key value) rest

/-- Embedding of `PGFiltering`: `db.Error = nil`, then the loop. The map of conditions is
the list of its entries in range order. -/
def PGFiltering (db : DB) (conds : List (String × conditions)) : DB :=
  filterLoop { db with Error := none } conds

/-! ## Auxiliary definitions used in the statements -/

/-- The successive values of `dbURI` in the loop of `NewMongoStandAloneConnection` when
every entry is reached, starting from the given value of the variable. -/
def standAloneURIsFrom (p : MongoConf) : String → List (Int × String) → List String
  | _, [] => []
  | dbURI, (_, vhost) :: rest =>
    standAloneURI p dbURI vhost :: standAloneURIsFrom p (standAloneURI p dbURI vhost) rest

/-- The driver lets one pass of the stand-alone loop succeed for this URI: client
construction, connect, ping and the insert/drop probe all return a nil error. -/
def probeOK (d : MongoDriver) (dbName : String) (uri : String) : Bool :=
  (d.newClient uri).isNone && (d.connect uri).isNone && (d.ping uri).isNone
    && (MongoDBServerStatus d { uri := uri, name := dbName }).1.isNone

/-- The credential segment of a Mongo URI: empty when the user or the password is. -/
def credentials (p : MongoConf) : String :=
  if p.User = "" || p.Pass = "" then "" else p.User ++ ":" ++ p.Pass ++ "@"

/-- The value is one that decoding a JSON document stores in an `interface{}`: `nil`
for null, a `bool`, a `float64` for every number (written as an integer or with a
fraction), a `string`, and a slice or a map for an array or an object. -/
def Value.jsonDecoded : Value → Bool
  | Value.nil => true
  | Value.bool _ => true
  | Value.float64 _ => true
  | Value.string _ => true
  | Value.other typeName _ => typeName = "[]interface {}" || typeName = "map[string]interface {}"
  | Value.int _ => false
  | Value.float32 _ => false

/-- The value is a number: its dynamic type is an integer or a floating-point type. -/
def Value.numeric : Value → Bool
  | Value.int _ => true
  | Value.float32 _ => true
  | Value.float64 _ => true
  | _ => false

/-- The conditions the body of the loop of `PGFiltering` adds for one entry: those it
adds to a builder that has none. -/
def addedConditions (e : String × conditions) : List (String × List Value) :=
  (filterStep { whereConditions := [], Error := none } e.1 e.2).whereConditions

/-- The error the body of the loop of `PGFiltering` records for one entry, `none` when
it records none: the `Error` it leaves on a builder that had none. -/
def recordedError (e : String × conditions) : Option String :=
  (filterStep { whereConditions := [], Error := none } e.1 e.2).Error

/-! ## Concrete inputs -/

/-- Two hosts, ranged over in the order `h1`, `h2`; no credentials, database `app`. -/
def twoHosts : MongoConf :=
  { Host := [(0, "h1:27017"), (1, "h2:27017")], User := "", Pass := "", DB := "app",
    Srv := false, Cluster := false, RsName := "rs0" }

/-- The same map as `twoHosts`, ranged over in the order `h2`, `h1`. -/
def twoHostsReversed : MongoConf :=
  { twoHosts with Host := [(1, "h2:27017"), (0, "h1:27017")] }

/-- A configuration with an empty host map. -/
def noHosts : MongoConf :=
  { twoHosts with Host := [] }

/-- A configuration with one host and credentials. -/
def oneHost : MongoConf :=
  { Host := [(7, "db.internal:27017")], User := "svc", Pass := "s3cret", DB := "app",
    Srv := true, Cluster := true, RsName := "rs0" }

/-- SRV scheme, credentials, the hosts `h1:27017`, `h2:27017` ranged over in the order
`h2`, `h1`, replica set `rs0`. -/
def srvCluster : MongoConf :=
  { Host := [(1, "h2:27017"), (0, "h1:27017")], User := "svc", Pass := "s3cret", DB := "app",
    Srv := true, Cluster := true, RsName := "rs0" }

/-- A driver for which client construction fails on every URI. -/
def refuseAll : MongoDriver :=
  { newClient := fun _ => some "error parsing uri", connect := fun _ => none,
    ping := fun _ => none, insertOne := fun _ _ => none, drop := fun _ _ => none }

/-- A driver for which every call succeeds. -/
def acceptAll : MongoDriver :=
  { newClient := fun _ => none, connect := fun _ => none, ping := fun _ => none,
    insertOne := fun _ _ => none, drop := fun _ _ => none }

/-- A driver that accepts every URI and reaches a server only through the URI `good`:
connect, ping and the insert/drop probe succeed for `good` and fail for any other URI. -/
def reachableVia (good : String) : MongoDriver :=
  { newClient := fun _ => none,
    connect := fun uri => if uri = good then none else some "server selection timeout",
    ping := fun uri => if uri = good then none else some "server selection timeout",
    insertOne := fun uri _ => if uri = good then none else some "server selection timeout",
    drop := fun uri _ => if uri = good then none else some "server selection timeout" }

/-- An Oracle configuration with two hosts. -/
def twoOracleHosts : OracleConnection :=
  { Host := [(0, "ora1:1521"), (1, "ora2:1521")], User := "scott", Pass := "tiger",
    DB := "ORCL", Timeout := "5" }

/-- An `sql.Open` that fails for every connection string. -/
def refuseOpen : String → Option String :=
  fun _ => some "ORA-12541: no listener"

/-- A builder without conditions and without error. -/
def fresh : DB :=
  { whereConditions := [], Error := none }

/-- Operator `rng` with the operands 18 and 30 as `float64` values (their bit patterns),
as they come out of a JSON document. -/
def ageRange : conditions :=
  { Operator := "rng", Value1 := Value.float64 0x4032000000000000,
    Value2 := Value.float64 0x403E000000000000 }

/-- Operator `rng` with a string as operand-2. -/
def ageRangeText : conditions :=
  { Operator := "Rng", Value1 := Value.float64 0x4032000000000000,
    Value2 := Value.string "30" }

/-- An operator that is not recognised, without operands. -/
def bogus : conditions :=
  { Operator := "bogus", Value1 := Value.nil, Value2 := Value.nil }

/-- Operator `like` with a number as operand-1. -/
def likeNumber : conditions :=
  { Operator := "like", Value1 := Value.float64 0x4045000000000000, Value2 := Value.nil }

/-- Operator `like` with a string as operand-1. -/
def nameLike : conditions :=
  { Operator := "LIKE", Value1 := Value.string "ann", Value2 := Value.nil }

/-! ## Lemmas on traces and on the loops -/

theorem urisTried_append (a b : List DriverCall) :
    urisTried (a ++ b) = urisTried a ++ urisTried b := by
  induction a with
  | nil => rfl
  | cons c cs ih => cases c <;> simp [urisTried, ih]

theorem urisTried_serverStatus (d : MongoDriver) (db : Database) :
    urisTried (MongoDBServerStatus d db).2 = [] := by
  unfold MongoDBServerStatus
  split
  · split <;> rfl
  · rfl

theorem standAloneLoop_exhausted (p : MongoConf) (d : MongoDriver) :
    ∀ (hosts : List (Int × String)) (dbURI : String) (calls : List DriverCall)
      (log : List String),
      (∀ u ∈ standAloneURIsFrom p dbURI hosts, probeOK d p.DB u = false) →
      (standAloneLoop p d dbURI calls log hosts).db = none ∧
      (standAloneLoop p d dbURI calls log hosts).err
        = some "unable to connect to any configured hostname" ∧
      urisTried (standAloneLoop p d dbURI calls log hosts).calls
        = urisTried calls ++ standAloneURIsFrom p dbURI hosts := by
  intro hosts
  induction hosts with
  | nil => intro dbURI calls log _; simp [standAloneLoop, standAloneURIsFrom]
  | cons h rest ih =>
    obtain ⟨khost, vhost⟩ := h
    intro dbURI calls log hfail
    have hrest : ∀ u ∈ standAloneURIsFrom p (standAloneURI p dbURI vhost) rest,
        probeOK d p.DB u = false := fun u hu =>
      hfail u (by simp [standAloneURIsFrom, hu])
    have hhead : probeOK d p.DB (standAloneURI p dbURI vhost) = false :=
      hfail _ (by simp [standAloneURIsFrom])
    simp only [standAloneLoop]
    split
    · have := ih (standAloneURI p dbURI vhost)
        (calls ++ [DriverCall.newClient (standAloneURI p dbURI vhost)]) log hrest
      simpa [urisTried_append, urisTried, standAloneURIsFrom] using this
    · split
      · have := ih (standAloneURI p dbURI vhost)
          (calls ++ [DriverCall.newClient (standAloneURI p dbURI vhost),
            DriverCall.connect (standAloneURI p dbURI vhost)]) log hrest
        simpa [urisTried_append, urisTried, standAloneURIsFrom] using this
      · split
        · have := ih (standAloneURI p dbURI vhost)
            (calls ++ [DriverCall.newClient (standAloneURI p dbURI vhost),
              DriverCall.connect (standAloneURI p dbURI vhost),
              DriverCall.ping (standAloneURI p dbURI vhost)]) log hrest
          simpa [urisTried_append, urisTried, standAloneURIsFrom] using this
        · split
          · rename_i e cs hs
            have := ih (standAloneURI p dbURI vhost)
              (calls ++ [DriverCall.newClient (standAloneURI p dbURI vhost),
                DriverCall.connect (standAloneURI p dbURI vhost),
                DriverCall.ping (standAloneURI p dbURI vhost)] ++ cs)
              (log ++ ["| Mongo | Connecting To Mongo StandAlone | Host Number : "
                ++ toString khost ++ " | Error | " ++ e ++ "\n"]) hrest
            have hcs : urisTried cs = [] := by
              have := urisTried_serverStatus d { uri := standAloneURI p dbURI vhost, name := p.DB }
              rw [hs] at this
              exact this
            simpa [urisTried_append, urisTried, standAloneURIsFrom, hcs] using this
          · rename_i cs hs
            simp_all [probeOK]

theorem standAloneURIsFrom_length (p : MongoConf) :
    ∀ (hosts : List (Int × String)) (dbURI : String),
      (standAloneURIsFrom p dbURI hosts).length = hosts.length := by
  intro hosts
  induction hosts with
  | nil => intro _; rfl
  | cons h rest ih => intro dbURI; obtain ⟨k, v⟩ := h; simp [standAloneURIsFrom, ih]

theorem connectLoop_exhausted (p : OracleConnection) (sqlOpen : String → Option String) :
    ∀ (hosts : List (Int × String)) (opened log : List String),
      (∀ h ∈ hosts, sqlOpen (connectionString p h.2) ≠ none) →
      (connectLoop p sqlOpen opened log hosts).db = none ∧
      (connectLoop p sqlOpen opened log hosts).err
        = some "unable to connect to any configured host" ∧
      (connectLoop p sqlOpen opened log hosts).opened
        = opened ++ hosts.map (fun h => connectionString p h.2) := by
  intro hosts
  induction hosts with
  | nil => intro opened log _; simp [connectLoop]
  | cons h rest ih =>
    obtain ⟨keyHost, currentHost⟩ := h
    intro opened log hfail
    have hhead : sqlOpen (connectionString p currentHost) ≠ none :=
      hfail (keyHost, currentHost) (by simp)
    have hrest : ∀ h ∈ rest, sqlOpen (connectionString p h.2) ≠ none :=
      fun h hh => hfail h (by simp [hh])
    simp only [connectLoop]
    split
    · rename_i e he
      have := ih (opened ++ [connectionString p currentHost])
        (log ++ ["| Oracle | Connecting To Host Number : " ++ toString keyHost
          ++ " | Error | " ++ e ++ "\n"]) hrest
      simpa using this
    · rename_i he
      exact absurd he hhead

/-! ## Lemmas on the filter translator -/

theorem filterStep_eq (db : DB) (key : String) (value : conditions) :
    filterStep db key value
      = { whereConditions := db.whereConditions ++ addedConditions (key, value),
          Error := (recordedError (key, value)).or db.Error } := by
  simp only [addedConditions, recordedError, filterStep, normalOperator, likeOperator,
    rangeOperator, rangeNotEqualOperator, notInRangeOperator, DB.Where]
  split_ifs <;> (repeat' split) <;> simp

theorem filterLoop_eq :
    ∀ (conds : List (String × conditions)) (db : DB),
      filterLoop db conds
        = { whereConditions := db.whereConditions ++ conds.flatMap addedConditions,
            Error := ((conds.filterMap recordedError).getLast?).or db.Error } := by
  intro conds
  induction conds with
  | nil => intro db; simp [filterLoop]
  | cons e rest ih =>
    intro db
    obtain ⟨key, value⟩ := e
    rw [filterLoop, ih, filterStep_eq]
    cases herr : recordedError (key, value) with
    | none => simp [List.filterMap_cons, herr]
    | some m =>
      simp only [List.filterMap_cons, herr, List.getLast?_cons]
      cases (List.filterMap recordedError rest).getLast? <;> simp

theorem PGFiltering_eq (db : DB) (conds : List (String × conditions)) :
    PGFiltering db conds
      = { whereConditions := db.whereConditions ++ conds.flatMap addedConditions,
          Error := (conds.filterMap recordedError).getLast? } := by
  simp [PGFiltering, filterLoop_eq, Option.or_none]

theorem filterLoop_append (db : DB) (pre post : List (String × conditions)) :
    filterLoop db (pre ++ post) = filterLoop (filterLoop db pre) post := by
  induction pre generalizing db with
  | nil => rfl
  | cons e rest ih => obtain ⟨key, value⟩ := e; simp [filterLoop, ih]

theorem filterLoop_keeps_error (db : DB) (conds : List (String × conditions))
    (herr : db.Error ≠ none) : (filterLoop db conds).Error ≠ none := by
  rw [filterLoop_eq]
  simp [herr]

/-! ## Claims on the Mongo and Oracle connectors -/

/-- C1 (the code departs from the claim; evaluation at the failing input). With the two
hosts `h1:27017`, `h2:27017` ranged over in this order and client construction failing,
the URI handed to the driver for the second candidate is the whole URI of the first
candidate followed by the second address and the suffix, not the URI the claim gives
for `h2:27017`. -/
theorem standAlone_second_uri_keeps_first :
    urisTried (NewMongoStandAloneConnection twoHosts refuseAll).calls
      = ["mongodb://h1:27017/app?retryWrites=true&w=majority&connect=direct",
         "mongodb://h1:27017/app?retryWrites=true&w=majority&connect=direct"
           ++ "h2:27017/app?retryWrites=true&w=majority&connect=direct"] ∧
    scheme twoHosts ++ credentials twoHosts ++ "h2:27017" ++ "/" ++ twoHosts.DB
        ++ "?retryWrites=true&w=majority&connect=direct"
      = "mongodb://h2:27017/app?retryWrites=true&w=majority&connect=direct" ∧
    urisTried (NewMongoStandAloneConnection twoHosts refuseAll).calls
      ≠ ["mongodb://h1:27017/app?retryWrites=true&w=majority&connect=direct",
         "mongodb://h2:27017/app?retryWrites=true&w=majority&connect=direct"] := by
  refine ⟨by decide, by decide, by decide⟩

/-- C2 (the code departs from the claim; evaluation at the failing input). Of the two
hosts only `h2:27017` is reachable: the driver passes the whole probe for the URI of
`h2:27017` and fails it for the URI of `h1:27017`. When the map is ranged over in the
order `h1`, `h2` the connector returns no handle and the aggregate error; in the order
`h2`, `h1` it returns the handle of `h2:27017`. -/
theorem standAlone_reachable_second_is_missed :
    probeOK (reachableVia "mongodb://h2:27017/app?retryWrites=true&w=majority&connect=direct")
      "app" "mongodb://h2:27017/app?retryWrites=true&w=majority&connect=direct" = true ∧
    probeOK (reachableVia "mongodb://h2:27017/app?retryWrites=true&w=majority&connect=direct")
      "app" "mongodb://h1:27017/app?retryWrites=true&w=majority&connect=direct" = false ∧
    (NewMongoStandAloneConnection twoHosts
      (reachableVia "mongodb://h2:27017/app?retryWrites=true&w=majority&connect=direct")).db
      = none ∧
    (NewMongoStandAloneConnection twoHosts
      (reachableVia "mongodb://h2:27017/app?retryWrites=true&w=majority&connect=direct")).err
      = some "unable to connect to any configured hostname" ∧
    (NewMongoStandAloneConnection twoHostsReversed
      (reachableVia "mongodb://h2:27017/app?retryWrites=true&w=majority&connect=direct")).db
      = some { uri := "mongodb://h2:27017/app?retryWrites=true&w=majority&connect=direct",
               name := "app" } ∧
    (NewMongoStandAloneConnection twoHostsReversed
      (reachableVia "mongodb://h2:27017/app?retryWrites=true&w=majority&connect=direct")).err
      = none := by
  refine ⟨by decide, by decide, by decide, by decide, by decide, by decide⟩

/-- C3 as stated fails: with every candidate failing (here the two hosts of `twoHosts`,
and also the empty host map), `NewMongoStandAloneConnection` returns no handle, but its
error message is "unable to connect to any configured hostname", which is not the
message "unable to connect to any configured host" of the claim. -/
theorem standAlone_exhausted_message_is_hostname :
    (∀ u ∈ standAloneURIsFrom twoHosts (scheme twoHosts) twoHosts.Host,
      probeOK refuseAll twoHosts.DB u = false) ∧
    (NewMongoStandAloneConnection twoHosts refuseAll).db = none ∧
    (NewMongoStandAloneConnection twoHosts refuseAll).err
      ≠ some "unable to connect to any configured host" ∧
    (NewMongoStandAloneConnection noHosts refuseAll).err
      ≠ some "unable to connect to any configured host" := by
  refine ⟨by decide, by decide, by decide, by decide⟩

/-- C3 amended: for every host map (the empty one included) in which every pass of the
loop fails, `NewMongoStandAloneConnection` returns no handle and the single error
"unable to connect to any configured hostname", after handing one URI per entry to the
driver; and `OracleConnection.Connect` returns no handle and the single error
"unable to connect to any configured host", after opening one connection string per
entry. No error of a single host is returned. -/
theorem failover_exhausted (p : MongoConf) (d : MongoDriver) (q : OracleConnection)
    (sqlOpen : String → Option String)
    (hmongo : ∀ u ∈ standAloneURIsFrom p (scheme p) p.Host, probeOK d p.DB u = false)
    (horacle : ∀ h ∈ q.Host, sqlOpen (connectionString q h.2) ≠ none) :
    ((NewMongoStandAloneConnection p d).db = none ∧
      (NewMongoStandAloneConnection p d).err
        = some "unable to connect to any configured hostname" ∧
      urisTried (NewMongoStandAloneConnection p d).calls
        = standAloneURIsFrom p (scheme p) p.Host ∧
      (urisTried (NewMongoStandAloneConnection p d).calls).length = p.Host.length) ∧
    ((q.Connect sqlOpen).db = none ∧
      (q.Connect sqlOpen).err = some "unable to connect to any configured host" ∧
      (q.Connect sqlOpen).opened = q.Host.map (fun h => connectionString q h.2) ∧
      (q.Connect sqlOpen).opened.length = q.Host.length) := by
  have hm := standAloneLoop_exhausted p d p.Host (scheme p) []
    ["| Mongo | Connecting To Mongo StandAlone"] hmongo
  have ho := connectLoop_exhausted q sqlOpen q.Host [] [] horacle
  have hm3 : urisTried (NewMongoStandAloneConnection p d).calls
      = standAloneURIsFrom p (scheme p) p.Host := by
    simpa [NewMongoStandAloneConnection, urisTried] using hm.2.2
  have ho3 : (q.Connect sqlOpen).opened = q.Host.map (fun h => connectionString q h.2) := by
    simpa [OracleConnection.Connect] using ho.2.2
  refine ⟨⟨hm.1, hm.2.1, hm3, ?_⟩, ⟨ho.1, ho.2.1, ho3, ?_⟩⟩
  · rw [hm3, standAloneURIsFrom_length]
  · rw [ho3, List.length_map]

/-- Witness of `failover_exhausted` (C3): two Mongo hosts with a driver that refuses every
URI, and two Oracle hosts with an `sql.Open` that always fails. -/
theorem failover_exhausted_witness :
    (∀ u ∈ standAloneURIsFrom twoHosts (scheme twoHosts) twoHosts.Host,
      probeOK refuseAll twoHosts.DB u = false) ∧
    (∀ h ∈ twoOracleHosts.Host,
      refuseOpen (connectionString twoOracleHosts h.2) ≠ none) ∧
    ((NewMongoStandAloneConnection twoHosts refuseAll).db = none ∧
      (NewMongoStandAloneConnection twoHosts refuseAll).err
        = some "unable to connect to any configured hostname" ∧
      urisTried (NewMongoStandAloneConnection twoHosts refuseAll).calls
        = standAloneURIsFrom twoHosts (scheme twoHosts) twoHosts.Host ∧
      (urisTried (NewMongoStandAloneConnection twoHosts refuseAll).calls).length
        = twoHosts.Host.length) ∧
    ((twoOracleHosts.Connect refuseOpen).db = none ∧
      (twoOracleHosts.Connect refuseOpen).err
        = some "unable to connect to any configured host" ∧
      (twoOracleHosts.Connect refuseOpen).opened
        = twoOracleHosts.Host.map (fun h => connectionString twoOracleHosts h.2) ∧
      (twoOracleHosts.Connect refuseOpen).opened.length = twoOracleHosts.Host.length) :=
  ⟨by decide, by decide,
    failover_exhausted twoHosts refuseAll twoOracleHosts refuseOpen (by decide) (by decide)⟩

/-- C4 as stated fails on the empty host map: `NewMongoClusterConnection` does not
return the configuration error there. It builds the URI with an empty host part and
hands it to the driver; the error returned is the driver's own, and with a driver that
accepts the URI a handle is returned. -/
theorem cluster_empty_hosts_reaches_driver :
    noHosts.Host.length < 2 ∧
    (NewMongoClusterConnection noHosts refuseAll).calls
      = [DriverCall.newClient "mongodb:///app?retryWrites=true&w=majority&replicaSet=rs0"] ∧
    (NewMongoClusterConnection noHosts refuseAll).err = some "error parsing uri" ∧
    (NewMongoClusterConnection noHosts refuseAll).err
      ≠ some "a cluster connection cannot be made if only a host is specified" ∧
    (NewMongoClusterConnection noHosts acceptAll).db
      = some { uri := "mongodb:///app?retryWrites=true&w=majority&replicaSet=rs0",
               name := "app" } ∧
    (NewMongoClusterConnection noHosts acceptAll).err = none := by
  refine ⟨by decide, by decide, by decide, by decide, by decide, by decide⟩

/-- C4 amended: for every host map with exactly one host, `NewMongoClusterConnection`
returns no handle and the error "a cluster connection cannot be made if only a host is
specified", without any call to the driver (no client is built, no connection is
attempted). -/
theorem cluster_single_host_rejected (p : MongoConf) (d : MongoDriver)
    (hone : p.Host.length = 1) :
    (NewMongoClusterConnection p d).db = none ∧
    (NewMongoClusterConnection p d).err
      = some "a cluster connection cannot be made if only a host is specified" ∧
    (NewMongoClusterConnection p d).calls = [] := by
  simp [NewMongoClusterConnection, hone]

/-- Witness of `cluster_single_host_rejected` (C4): one host, a driver that would accept it. -/
theorem cluster_single_host_rejected_witness :
    oneHost.Host.length = 1 ∧
    (NewMongoClusterConnection oneHost acceptAll).db = none ∧
    (NewMongoClusterConnection oneHost acceptAll).err
      = some "a cluster connection cannot be made if only a host is specified" ∧
    (NewMongoClusterConnection oneHost acceptAll).calls = [] :=
  ⟨by decide, cluster_single_host_rejected oneHost acceptAll (by decide)⟩

/-- C5: for every host map with at least two hosts, in whatever order the entries of
the map `entries` are ranged over, and every replica-set name, `NewMongoClusterConnection`
hands exactly one URI to the driver: the scheme ("mongodb+srv://" when the SRV flag is
set, else "mongodb://"), the segment "user:pass@" (left out when user or password is
empty), the addresses of all entries, each once, joined by ",", then "/" and the
database name, then "?retryWrites=true&w=majority&replicaSet=" and the replica-set
name. It calls `Connect` at most once (once when the client is built), and every
driver call it makes is for that URI, however many hosts there are. -/
theorem cluster_builds_one_uri (p : MongoConf) (d : MongoDriver)
    (entries : List (Int × String)) (horder : p.Host.Perm entries)
    (hsize : 2 ≤ entries.length) :
    ∃ (addrs : List String) (uri : String),
      addrs.Perm (entries.map Prod.snd) ∧
      uri = (if p.Srv = true then "mongodb+srv://" else "mongodb://")
        ++ (if p.User = "" ∨ p.Pass = "" then "" else p.User ++ ":" ++ p.Pass ++ "@")
        ++ String.intercalate "," addrs ++ "/" ++ p.DB
        ++ "?retryWrites=true&w=majority&replicaSet=" ++ p.RsName ∧
      urisTried (NewMongoClusterConnection p d).calls = [uri] ∧
      connectCalls (NewMongoClusterConnection p d).calls ≤ 1 ∧
      (d.newClient uri = none → connectCalls (NewMongoClusterConnection p d).calls = 1) ∧
      ∀ c ∈ (NewMongoClusterConnection p d).calls,
        c = DriverCall.newClient uri ∨ c = DriverCall.connect uri ∨ c = DriverCall.ping uri := by
  have hlen : p.Host.length ≠ 1 := by
    have := horder.length_eq
    omega
  have huri : clusterURI p (String.intercalate "," (p.Host.map Prod.snd))
      = (if p.Srv = true then "mongodb+srv://" else "mongodb://")
        ++ (if p.User = "" ∨ p.Pass = "" then "" else p.User ++ ":" ++ p.Pass ++ "@")
        ++ String.intercalate "," (p.Host.map Prod.snd) ++ "/" ++ p.DB
        ++ "?retryWrites=true&w=majority&replicaSet=" ++ p.RsName := by
    unfold clusterURI scheme
    by_cases hcred : p.User = "" ∨ p.Pass = ""
    · simp [hcred]
    · simp [hcred, String.append_assoc]
  refine ⟨p.Host.map Prod.snd, clusterURI p (String.intercalate "," (p.Host.map Prod.snd)),
    horder.map Prod.snd, huri, ?_⟩
  simp only [NewMongoClusterConnection, hlen, if_false]
  split
  · rename_i e he
    simp [urisTried, connectCalls, he]
  · split
    · simp [urisTried, connectCalls]
    · split <;> simp [urisTried, connectCalls]

/-- Witness of `cluster_builds_one_uri` (C5), at two inputs: the hosts `h1:27017`,
`h2:27017` with replica-set name `rs0`, ranged over in the reverse order, once without
SRV and without credentials and once with the SRV flag and credentials. In both the
calls made are evaluated: one client, one `Connect`, one `Ping`, all for the one URI. -/
theorem cluster_builds_one_uri_witness :
    twoHostsReversed.Host.Perm twoHosts.Host ∧ srvCluster.Host.Perm twoHosts.Host ∧
    2 ≤ twoHosts.Host.length ∧
    (NewMongoClusterConnection twoHostsReversed acceptAll).calls
      = [DriverCall.newClient
           "mongodb://h2:27017,h1:27017/app?retryWrites=true&w=majority&replicaSet=rs0",
         DriverCall.connect
           "mongodb://h2:27017,h1:27017/app?retryWrites=true&w=majority&replicaSet=rs0",
         DriverCall.ping
           "mongodb://h2:27017,h1:27017/app?retryWrites=true&w=majority&replicaSet=rs0"] ∧
    (NewMongoClusterConnection srvCluster acceptAll).calls
      = [DriverCall.newClient ("mongodb+srv://svc:s3cret@h2:27017,h1:27017/app"
           ++ "?retryWrites=true&w=majority&replicaSet=rs0"),
         DriverCall.connect ("mongodb+srv://svc:s3cret@h2:27017,h1:27017/app"
           ++ "?retryWrites=true&w=majority&replicaSet=rs0"),
         DriverCall.ping ("mongodb+srv://svc:s3cret@h2:27017,h1:27017/app"
           ++ "?retryWrites=true&w=majority&replicaSet=rs0")] ∧
    (∃ (addrs : List String) (uri : String),
      addrs.Perm (twoHosts.Host.map Prod.snd) ∧
      uri = (if twoHostsReversed.Srv = true then "mongodb+srv://" else "mongodb://")
        ++ (if twoHostsReversed.User = "" ∨ twoHostsReversed.Pass = "" then ""
            else twoHostsReversed.User ++ ":" ++ twoHostsReversed.Pass ++ "@")
        ++ String.intercalate "," addrs ++ "/" ++ twoHostsReversed.DB
        ++ "?retryWrites=true&w=majority&replicaSet=" ++ twoHostsReversed.RsName ∧
      urisTried (NewMongoClusterConnection twoHostsReversed acceptAll).calls = [uri] ∧
      connectCalls (NewMongoClusterConnection twoHostsReversed acceptAll).calls ≤ 1 ∧
      (acceptAll.newClient uri = none →
        connectCalls (NewMongoClusterConnection twoHostsReversed acceptAll).calls = 1) ∧
      ∀ c ∈ (NewMongoClusterConnection twoHostsReversed acceptAll).calls,
        c = DriverCall.newClient uri ∨ c = DriverCall.connect uri
          ∨ c = DriverCall.ping uri) ∧
    (∃ (addrs : List String) (uri : String),
      addrs.Perm (twoHosts.Host.map Prod.snd) ∧
      uri = (if srvCluster.Srv = true then "mongodb+srv://" else "mongodb://")
        ++ (if srvCluster.User = "" ∨ srvCluster.Pass = "" then ""
            else srvCluster.User ++ ":" ++ srvCluster.Pass ++ "@")
        ++ String.intercalate "," addrs ++ "/" ++ srvCluster.DB
        ++ "?retryWrites=true&w=majority&replicaSet=" ++ srvCluster.RsName ∧
      urisTried (NewMongoClusterConnection srvCluster acceptAll).calls = [uri] ∧
      connectCalls (NewMongoClusterConnection srvCluster acceptAll).calls ≤ 1 ∧
      (acceptAll.newClient uri = none →
        connectCalls (NewMongoClusterConnection srvCluster acceptAll).calls = 1) ∧
      ∀ c ∈ (NewMongoClusterConnection srvCluster acceptAll).calls,
        c = DriverCall.newClient uri ∨ c = DriverCall.connect uri
          ∨ c = DriverCall.ping uri) :=
  ⟨List.Perm.swap _ _ _, List.Perm.swap _ _ _, by decide, by decide, by decide,
    cluster_builds_one_uri twoHostsReversed acceptAll twoHosts.Host (List.Perm.swap _ _ _)
      (by decide),
    cluster_builds_one_uri srvCluster acceptAll twoHosts.Host (List.Perm.swap _ _ _)
      (by decide)⟩

/-! ## Claims on the filter translator -/

/-- C6: for every field name and every pair of operands of a filter document (values
as JSON decoding stores them, where every number, integral or not, is a `float64`), the
loop body on a condition whose lower-cased operator is `rng` adds exactly the condition
"<field> BETWEEN ? AND ?" bound to (operand-1, operand-2) and leaves the error slot as
it was if and only if both operands are numbers; otherwise it adds no condition and
records the type error naming the field, for `value_1` when operand-1 is not a number,
and for `value_2` only when operand-1 is a number and operand-2 is not. -/
theorem range_translation (db : DB) (key : String) (c : conditions)
    (hrng : ToLower c.Operator = "rng")
    (hone : c.Value1.jsonDecoded = true) (htwo : c.Value2.jsonDecoded = true) :
    (filterStep db key c
        = { whereConditions := db.whereConditions
              ++ [(key ++ " BETWEEN ? AND ?", [c.Value1, c.Value2])],
            Error := db.Error }
      ↔ c.Value1.numeric = true ∧ c.Value2.numeric = true) ∧
    (c.Value1.numeric = false →
      filterStep db key c
        = { whereConditions := db.whereConditions,
            Error := some ("value_1 of " ++ key ++ " must be of integer or float type") }) ∧
    (c.Value1.numeric = true → c.Value2.numeric = false →
      filterStep db key c
        = { whereConditions := db.whereConditions,
            Error := some ("value_2 of " ++ key ++ " must be of integer or float type") }) := by
  have hstep : filterStep db key c = rangeOperator db key c := by
    simp [filterStep, hrng]
  rw [hstep]
  obtain ⟨op, v1, v2⟩ := c
  cases v1 <;> cases v2 <;>
    simp_all [rangeOperator, Value.assertFloat64, Value.jsonDecoded, Value.numeric, DB.Where,
      DB.mk.injEq]

/-- Witness of `range_translation` (C6): field `age`, operator `rng`, operands 18 and 30
(JSON numbers, held as `float64`), on a fresh builder: the condition
`age BETWEEN ? AND ?` bound to 18 and 30 is added and no error is recorded. With the
string "30" as operand-2 the type error for `value_2` is recorded instead. -/
theorem range_translation_witness :
    ToLower ageRange.Operator = "rng" ∧
    ageRange.Value1.jsonDecoded = true ∧ ageRange.Value2.jsonDecoded = true ∧
    PGFiltering fresh [("age", ageRange)]
      = { whereConditions := [("age BETWEEN ? AND ?",
            [Value.float64 0x4032000000000000, Value.float64 0x403E000000000000])],
          Error := none } ∧
    PGFiltering fresh [("age", ageRangeText)]
      = { whereConditions := [],
          Error := some "value_2 of age must be of integer or float type" } :=
  ⟨by decide, by decide, by decide,
    ((range_translation { fresh with Error := none } "age" ageRange (by decide) (by decide)
      (by decide)).1.2 ⟨rfl, rfl⟩),
    ((range_translation { fresh with Error := none } "age" ageRangeText (by decide)
      (by decide) (by decide)).2.2 rfl rfl)⟩

/-- C7: for every field name, every operand-1 and every operator whose lower-cased tag
is one of lt, lte, gt, gte, eq, ne, the loop body of `PGFiltering` adds exactly the one
condition "<field> <symbol> ?" bound to operand-1, with the symbol `<`, `<=`, `>`, `>=`,
`=`, `!=` of the tag, and leaves the error slot as it was; `PGFiltering` on the map with
this single entry returns that condition added and no error. -/
theorem normal_operator_translation (db : DB) (key : String) (c : conditions)
    (symbol : String)
    (htag : (ToLower c.Operator, symbol)
      ∈ [("lt", "<"), ("lte", "<="), ("gt", ">"), ("gte", ">="), ("eq", "="), ("ne", "!=")]) :
    filterStep db key c
      = { whereConditions := db.whereConditions ++ [(key ++ " " ++ symbol ++ " ?", [c.Value1])],
          Error := db.Error } ∧
    PGFiltering db [(key, c)]
      = { whereConditions := db.whereConditions ++ [(key ++ " " ++ symbol ++ " ?", [c.Value1])],
          Error := none } := by
  have hstep : ∀ b : DB, filterStep b key c
      = { whereConditions := b.whereConditions ++ [(key ++ " " ++ symbol ++ " ?", [c.Value1])],
          Error := b.Error } := by
    intro b
    simp only [List.mem_cons, Prod.mk.injEq, List.mem_singleton, List.not_mem_nil,
      or_false] at htag
    rcases htag with ⟨h, rfl⟩ | ⟨h, rfl⟩ | ⟨h, rfl⟩ | ⟨h, rfl⟩ | ⟨h, rfl⟩ | ⟨h, rfl⟩ <;>
      simp [filterStep, normalOperator, DB.Where, h]
  exact ⟨hstep db, by simp [PGFiltering, filterLoop, hstep]⟩

/-- Witness of `normal_operator_translation` (C7): the operator written `GtE` on field `age`. -/
theorem normal_operator_translation_witness :
    (ToLower "GtE", ">=")
      ∈ [("lt", "<"), ("lte", "<="), ("gt", ">"), ("gte", ">="), ("eq", "="), ("ne", "!=")] ∧
    PGFiltering fresh [("age", { Operator := "GtE", Value1 := Value.int 21, Value2 := Value.nil })]
      = { whereConditions := [("age >= ?", [Value.int 21])], Error := none } :=
  ⟨by decide,
    (normal_operator_translation fresh "age"
      { Operator := "GtE", Value1 := Value.int 21, Value2 := Value.nil } ">=" (by decide)).2⟩

/-- C8: for every builder and every map with a single entry whose lower-cased operator
is none of lt, lte, gt, gte, eq, ne, like, rng, rne, nir, `PGFiltering` returns a builder
with the error "unrecognized operator" and exactly the conditions the builder had. -/
theorem unrecognized_operator (db : DB) (key : String) (c : conditions)
    (htag : ToLower c.Operator
      ∉ ["lt", "lte", "gt", "gte", "eq", "ne", "like", "rng", "rne", "nir"]) :
    PGFiltering db [(key, c)]
      = { whereConditions := db.whereConditions, Error := some "unrecognized operator" } := by
  simp only [List.mem_cons, List.mem_singleton, List.not_mem_nil, or_false, not_or] at htag
  obtain ⟨h1, h2, h3, h4, h5, h6, h7, h8, h9, h10⟩ := htag
  simp [PGFiltering, filterLoop, filterStep, h1, h2, h3, h4, h5, h6, h7, h8, h9, h10]

/-- Witness of `unrecognized_operator` (C8): the map with the entry `x` and operator `bogus`, on a
builder that already has a condition. -/
theorem unrecognized_operator_witness :
    ToLower bogus.Operator
      ∉ ["lt", "lte", "gt", "gte", "eq", "ne", "like", "rng", "rne", "nir"] ∧
    PGFiltering { whereConditions := [("id = ?", [Value.int 1])], Error := none } [("x", bogus)]
      = { whereConditions := [("id = ?", [Value.int 1])],
          Error := some "unrecognized operator" } :=
  ⟨by decide,
    unrecognized_operator { whereConditions := [("id = ?", [Value.int 1])], Error := none }
      "x" bogus (by decide)⟩

/-- C9 as stated fails: a builder that carries an error before the call comes back
from `PGFiltering` with a nil error, both for the empty map and for a map whose only
field translates without error. -/
theorem filtering_clears_prior_error :
    ({ whereConditions := [], Error := some "record not found" } : DB).Error ≠ none ∧
    (PGFiltering { whereConditions := [], Error := some "record not found" } []).Error = none ∧
    (PGFiltering { whereConditions := [], Error := some "record not found" }
      [("age", ageRange)]).Error = none := by
  refine ⟨by decide, by decide, by decide⟩

/-- C9 amended: after the reset of the error slot at its start, `PGFiltering` never
clears a recorded error: for every builder and every map, if the builder carries a
non-nil error after the entries `pre` have been translated, the builder returned after
the remaining entries `post` carries a non-nil error, whatever conditions are added. -/
theorem filtering_keeps_recorded_error (db : DB) (pre post : List (String × conditions))
    (hrec : (PGFiltering db pre).Error ≠ none) :
    (PGFiltering db (pre ++ post)).Error ≠ none := by
  unfold PGFiltering at hrec ⊢
  rw [filterLoop_append]
  exact filterLoop_keeps_error _ post hrec

/-- Witness of `filtering_keeps_recorded_error` (C9): the field `x` with operator `bogus` fails
first, the field `age` is translated afterwards. -/
theorem filtering_keeps_recorded_error_witness :
    (PGFiltering fresh [("x", bogus)]).Error ≠ none ∧
    (PGFiltering fresh ([("x", bogus)] ++ [("age", ageRange)])).Error ≠ none :=
  ⟨by decide, filtering_keeps_recorded_error fresh [("x", bogus)] [("age", ageRange)] (by decide)⟩

/-- C10 as stated fails: the map with the fields `a` (operator `bogus`) and `b`
(operator `like` with a number) has unique field names; translated in the order `a`, `b`
it records the type error of `b`, in the order `b`, `a` it records "unrecognized
operator". -/
theorem filtering_error_depends_on_order :
    [("a", bogus), ("b", likeNumber)].Perm [("b", likeNumber), ("a", bogus)] ∧
    ([("a", bogus), ("b", likeNumber)].map Prod.fst).Nodup ∧
    (PGFiltering fresh [("a", bogus), ("b", likeNumber)]).Error
      = some "value_1 of b must be of string type" ∧
    (PGFiltering fresh [("b", likeNumber), ("a", bogus)]).Error
      = some "unrecognized operator" ∧
    (PGFiltering fresh [("a", bogus), ("b", likeNumber)]).Error
      ≠ (PGFiltering fresh [("b", likeNumber), ("a", bogus)]).Error := by
  refine ⟨List.Perm.swap _ _ _, by decide, by decide, by decide, by decide⟩

/-- C10 amended: for every map and any two orders `first`, `second` of its entries,
`PGFiltering` from the same builder yields the same conditions with the same bound
operands up to reordering, and the same error status (both nil or both non-nil). The
error returned is the one recorded for the failing entry that comes last in the order;
so the two orders return the same error when all failing entries record the same
message, in particular when at most one entry fails. -/
theorem filtering_order_independence (db : DB) (first second : List (String × conditions))
    (horder : first.Perm second) :
    (PGFiltering db first).whereConditions.Perm (PGFiltering db second).whereConditions ∧
    ((PGFiltering db first).Error = none ↔ (PGFiltering db second).Error = none) ∧
    (PGFiltering db first).Error = (first.filterMap recordedError).getLast? ∧
    (PGFiltering db second).Error = (second.filterMap recordedError).getLast? ∧
    ((∀ e1 ∈ first, ∀ e2 ∈ first, ∀ m1 m2 : String,
        recordedError e1 = some m1 → recordedError e2 = some m2 → m1 = m2) →
      (PGFiltering db first).Error = (PGFiltering db second).Error) := by
  have hp := horder.filterMap recordedError
  have hnil : (first.filterMap recordedError).getLast? = none
      ↔ (second.filterMap recordedError).getLast? = none := by
    rw [List.getLast?_eq_none_iff, List.getLast?_eq_none_iff]
    constructor
    · intro h; rw [h] at hp; exact List.Perm.nil_eq hp |>.symm
    · intro h; rw [h] at hp; exact List.Perm.eq_nil hp
  simp only [PGFiltering_eq]
  refine ⟨List.Perm.append_left _ (horder.flatMap_right _), hnil, trivial, trivial, ?_⟩
  intro hsame
  cases h1 : (first.filterMap recordedError).getLast? with
  | none => exact (hnil.1 h1).symm
  | some m1 =>
    cases h2 : (second.filterMap recordedError).getLast? with
    | none => rw [hnil.2 h2] at h1; cases h1
    | some m2 =>
      have hm1 := List.mem_of_getLast?_eq_some h1
      have hm2 := hp.mem_iff.2 (List.mem_of_getLast?_eq_some h2)
      obtain ⟨e1, he1, hr1⟩ := List.mem_filterMap.1 hm1
      obtain ⟨e2, he2, hr2⟩ := List.mem_filterMap.1 hm2
      rw [hsame e1 he1 e2 he2 m1 m2 hr1 hr2]

/-- Witness of `filtering_order_independence` (C10): three fields of which only `a`
fails, in two orders; the conditions agree up to reordering and the errors are equal. -/
theorem filtering_order_independence_witness :
    [("a", bogus), ("age", ageRange), ("n", nameLike)].Perm
      [("age", ageRange), ("a", bogus), ("n", nameLike)] ∧
    (PGFiltering fresh [("a", bogus), ("age", ageRange), ("n", nameLike)]).whereConditions.Perm
      (PGFiltering fresh [("age", ageRange), ("a", bogus), ("n", nameLike)]).whereConditions ∧
    (PGFiltering fresh [("a", bogus), ("age", ageRange), ("n", nameLike)]).Error
      = (PGFiltering fresh [("age", ageRange), ("a", bogus), ("n", nameLike)]).Error ∧
    (PGFiltering fresh [("a", bogus), ("age", ageRange), ("n", nameLike)]).Error
      = some "unrecognized operator" := by
  have h := filtering_order_independence fresh
    [("a", bogus), ("age", ageRange), ("n", nameLike)]
    [("age", ageRange), ("a", bogus), ("n", nameLike)] (List.Perm.swap _ _ _)
  have ha : recordedError ("a", bogus) = some "unrecognized operator" := by decide
  have hage : recordedError ("age", ageRange) = none := by decide
  have hn : recordedError ("n", nameLike) = none := by decide
  refine ⟨List.Perm.swap _ _ _, h.1, h.2.2.2.2 ?_, by decide⟩
  intro e1 he1 e2 he2 m1 m2 h1 h2
  simp only [List.mem_cons, List.mem_singleton, List.not_mem_nil, or_false] at he1 he2
  rcases he1 with rfl | rfl | rfl <;> rcases he2 with rfl | rfl | rfl <;>
    simp_all

end GoLibsDb
